import Mathlib

/-!
Shallow embedding of `cloud/linode/linode_nodebalancer.py`: the reconcile
function `linodeNodeBalancers`, the `handle_api_error` decorator's error
translation, and a model of the remote NodeBalancer API it talks to.

The remote state is a list of NodeBalancer resources. Each remote primitive
(lookup, update, create, delete) can be made to fail through an injected
`ApiErr`, mirroring `linode_api.ApiError`. Every remote call issued by the
reconciler is recorded in a trace, and update/create calls record exactly
which keyword arguments the Python code passes, so that claims about absent
fields (e.g. DatacenterID never sent on update) are provable facts about
the call record rather than artifacts of the encoding.
-/

namespace LinodeNodeBalancer

/-- A remote NodeBalancer resource as returned by the Linode API
(dictionary keys `NODEBALANCERID`, `LABEL`, `CLIENTCONNTHROTTLE`, ...).
Per the spec's data model, the remote label is a string. -/
structure RemoteResource where
  NODEBALANCERID : Nat
  LABEL : String
  CLIENTCONNTHROTTLE : Int
  DATACENTERID : Int
  PAYMENTTERM : Int
deriving Repr, DecidableEq

/-- A Linode API error: `e.value[0]['ERRORCODE']` and `e.value[0]['ERRORMESSAGE']`. -/
structure ApiErr where
  ERRORCODE : Int
  ERRORMESSAGE : String
deriving Repr, DecidableEq

/-- The payload of `module.fail_json(msg=...)`. -/
structure FailJson where
  msg : String
deriving Repr, DecidableEq

/-- The payload of `module.exit_json(changed=..., instance=..., instances=...)`;
the record has exactly the three fields the code passes. -/
structure ExitJson where
  changed : Bool
  «instance» : Option RemoteResource
  instances : List (Option RemoteResource)
deriving Repr, DecidableEq

/-- The keyword arguments of an `api.nodebalancer_update` call. A field is
`none` when the Python call does not pass that keyword at all; `Label`'s
value is itself an `Option String` because the module's `name` parameter
may be null. -/
structure UpdateCall where
  NodeBalancerID : Nat
  ClientConnThrottle : Option Int
  Label : Option (Option String)
  DatacenterID : Option Int
  PaymentTerm : Option Int
deriving Repr, DecidableEq

/-- The keyword arguments of an `api.nodebalancer_create` call; a field is
`none` when the Python call does not pass that keyword. -/
structure CreateCall where
  DatacenterID : Option Int
  PaymentTerm : Option Int
  Label : Option (Option String)
  ClientConnThrottle : Option Int
deriving Repr, DecidableEq

/-- One remote API call, as issued by the module. -/
inductive ApiCall where
  | lookup (node_balancer_id : Option Nat) (name : Option String)
  | update (c : UpdateCall)
  | create (c : CreateCall)
  | delete (NodeBalancerId : Nat)
deriving Repr, DecidableEq

/-- `true` exactly on the write operations (create, update, delete). -/
def isWrite : ApiCall → Bool
  | .update _ => true
  | .create _ => true
  | .delete _ => true
  | .lookup _ _ => false

/-- `true` exactly on lookups. -/
def isLookup : ApiCall → Bool
  | .lookup _ _ => true
  | _ => false

/-- The remote world the module runs against: the list of existing
NodeBalancers, the id the remote system will assign to the next created
resource, and an optional injected `ApiError` per remote primitive
(`lookupErr` fails the initial lookup, `refetchErr` the post-write
re-fetch). -/
structure Env where
  world : List RemoteResource
  nextId : Nat
  lookupErr : Option ApiErr
  refetchErr : Option ApiErr
  updateErr : Option ApiErr
  createErr : Option ApiErr
  deleteErr : Option ApiErr
deriving Repr, DecidableEq

/-- The error translation performed by the `handle_api_error` decorator:
catch `linode_api.ApiError` and turn code and message into
`fail_json(msg="FATAL: Code [{code}] - {err}")`. -/
def handle_api_error (e : ApiErr) : FailJson :=
  { msg := "FATAL: Code [" ++ toString e.ERRORCODE ++ "] - " ++ e.ERRORMESSAGE }

/-- Modelled from the spec: `linode_find_nodebalancer` lives in
`ansible.module_utils.linode`, which is not under `src/`. Per the spec's
lookup step, "if `identifier` given, resolve directly by id; else resolve
by name (first match in listing, or none if absent)". -/
def linode_find_nodebalancer (world : List RemoteResource)
    (node_balancer_id : Option Nat) (name : Option String) :
    Option RemoteResource :=
  match node_balancer_id with
  | some i => world.find? (fun r => r.NODEBALANCERID == i)
  | none => world.find? (fun r => some r.LABEL == name)

/-- Remote application of a `Label` keyword value to a stored label.
Per the spec's data model remote labels are strings, so a null label
value cannot be stored; it leaves the remote string label unchanged. -/
def applyLabelValue (v : Option String) (old : String) : String :=
  match v with
  | some s => s
  | none => old

/-- The remote system's effect of an update call on one resource:
apply each keyword that is present, leave the rest unchanged
(spec: the resource is "mutated in place by update calls"). -/
def updFn (c : UpdateCall) (r : RemoteResource) : RemoteResource :=
  { r with
    LABEL := match c.Label with
      | some v => applyLabelValue v r.LABEL
      | none => r.LABEL
    CLIENTCONNTHROTTLE := c.ClientConnThrottle.getD r.CLIENTCONNTHROTTLE }

/-- The remote system's effect of an update call on the world: mutate the
resource with the targeted id in place. -/
def nodebalancer_update_world (w : List RemoteResource) (c : UpdateCall) :
    List RemoteResource :=
  w.map (fun r => if r.NODEBALANCERID = c.NodeBalancerID then updFn c r else r)

/-- The resource the remote system creates for a create call: it assigns
the fresh id, stores the given label, datacenter and payment term, and
the connection throttle starts at the baseline 0 (spec: throttle is not
settable at creation). A missing or null label keyword cannot be stored
as a string label; the stored label defaults to the empty string. -/
def createdResource (id : Nat) (c : CreateCall) : RemoteResource :=
  { NODEBALANCERID := id
    LABEL := applyLabelValue (c.Label.getD none) ""
    CLIENTCONNTHROTTLE := 0
    DATACENTERID := c.DatacenterID.getD 0
    PAYMENTTERM := c.PaymentTerm.getD 0 }

instance {ε α : Type} [DecidableEq ε] [DecidableEq α] : DecidableEq (Except ε α) :=
  fun a b =>
    match a, b with
    | .error e, .error f => decidable_of_iff (e = f) (by simp)
    | .error _, .ok _ => isFalse (fun h => Except.noConfusion h)
    | .ok _, .error _ => isFalse (fun h => Except.noConfusion h)
    | .ok x, .ok y => decidable_of_iff (x = y) (by simp)

/-- The outcome of one invocation of the decorated reconcile function:
the remote world afterwards, the trace of remote calls issued, and either
the `exit_json` payload or the `fail_json` payload produced by
`handle_api_error`. -/
structure RunOut where
  env : Env
  calls : List ApiCall
  result : Except FailJson ExitJson
deriving Repr, DecidableEq

/-- Direct translation of the decorated `linodeNodeBalancers(module, api,
state, name, node_balancer_id, datacenter_id, paymentterm,
client_conn_throttle)`:

* look the NodeBalancer up (id takes precedence over name);
* if found and `state == "present"`: when `LABEL != name` or
  `CLIENTCONNTHROTTLE != client_conn_throttle`, build `update_kwargs`
  containing `Label` only when the label differs, call
  `nodebalancer_update` with `NodeBalancerID`, `ClientConnThrottle` and
  those kwargs, set `changed`, and re-fetch by the returned id;
* if found and `state == "absent"`: delete by id, `changed = True`;
* if absent and `state == "present"`: create with `DatacenterID`,
  `PaymentTerm`, `Label`, re-fetch by the assigned id, `changed = True`;
* if absent and `state == "absent"`: pass;
* finally `exit_json(changed=changed, instance=nodebalancer,
  instances=[nodebalancer])`.

Any `ApiError` raised by a remote call aborts the rest of the body and is
turned into `fail_json` by the `handle_api_error` decorator. -/
def linodeNodeBalancers (env : Env) (state : String) (name : Option String)
    (node_balancer_id : Option Nat) (datacenter_id : Int) (paymentterm : Int)
    (client_conn_throttle : Int) : RunOut :=
  let calls0 : List ApiCall := [ApiCall.lookup node_balancer_id name]
  match env.lookupErr with
  | some e => { env := env, calls := calls0, result := .error (handle_api_error e) }
  | none =>
    match linode_find_nodebalancer env.world node_balancer_id name with
    | some nodebalancer =>
      if state = "present" then
        if some nodebalancer.LABEL ≠ name ∨
            nodebalancer.CLIENTCONNTHROTTLE ≠ client_conn_throttle then
          let update_kwargs : Option (Option String) :=
            if some nodebalancer.LABEL ≠ name then some name else none
          let c : UpdateCall :=
            { NodeBalancerID := nodebalancer.NODEBALANCERID
              ClientConnThrottle := some client_conn_throttle
              Label := update_kwargs
              DatacenterID := none
              PaymentTerm := none }
          let calls1 := calls0 ++ [ApiCall.update c]
          match env.updateErr with
          | some e => { env := env, calls := calls1, result := .error (handle_api_error e) }
          | none =>
            let world1 := nodebalancer_update_world env.world c
            let env1 := { env with world := world1 }
            let calls2 := calls1 ++ [ApiCall.lookup (some nodebalancer.NODEBALANCERID) name]
            match env.refetchErr with
            | some e => { env := env1, calls := calls2, result := .error (handle_api_error e) }
            | none =>
              let nb2 := linode_find_nodebalancer world1
                (some nodebalancer.NODEBALANCERID) name
              { env := env1, calls := calls2
                result := .ok { changed := true, «instance» := nb2, instances := [nb2] } }
        else
          { env := env, calls := calls0
            result := .ok { changed := false, «instance» := some nodebalancer
                            instances := [some nodebalancer] } }
      else if state = "absent" then
        let calls1 := calls0 ++ [ApiCall.delete nodebalancer.NODEBALANCERID]
        match env.deleteErr with
        | some e => { env := env, calls := calls1, result := .error (handle_api_error e) }
        | none =>
          let world1 := env.world.filter
            (fun r => r.NODEBALANCERID != nodebalancer.NODEBALANCERID)
          { env := { env with world := world1 }, calls := calls1
            result := .ok { changed := true, «instance» := none, instances := [none] } }
      else
        { env := env, calls := calls0
          result := .ok { changed := false, «instance» := some nodebalancer
                          instances := [some nodebalancer] } }
    | none =>
      if state = "present" then
        let c : CreateCall :=
          { DatacenterID := some datacenter_id
            PaymentTerm := some paymentterm
            Label := some name
            ClientConnThrottle := none }
        let calls1 := calls0 ++ [ApiCall.create c]
        match env.createErr with
        | some e => { env := env, calls := calls1, result := .error (handle_api_error e) }
        | none =>
          let newRes := createdResource env.nextId c
          let world1 := env.world ++ [newRes]
          let env1 := { env with world := world1, nextId := env.nextId + 1 }
          let calls2 := calls1 ++ [ApiCall.lookup (some newRes.NODEBALANCERID) name]
          match env.refetchErr with
          | some e => { env := env1, calls := calls2, result := .error (handle_api_error e) }
          | none =>
            let nb2 := linode_find_nodebalancer world1 (some newRes.NODEBALANCERID) name
            { env := env1, calls := calls2
              result := .ok { changed := true, «instance» := nb2, instances := [nb2] } }
      else
        { env := env, calls := calls0
          result := .ok { changed := false, «instance» := none, instances := [none] } }

example :
    (linodeNodeBalancers
      { world := [], nextId := 1, lookupErr := none, refetchErr := none
        updateErr := none, createErr := none, deleteErr := none }
      "present" (some "a") none 7 1 0).result
    = .ok { changed := true
            «instance» := some { NODEBALANCERID := 1, LABEL := "a"
                                 CLIENTCONNTHROTTLE := 0, DATACENTERID := 7
                                 PAYMENTTERM := 1 }
            instances := [some { NODEBALANCERID := 1, LABEL := "a"
                                 CLIENTCONNTHROTTLE := 0, DATACENTERID := 7
                                 PAYMENTTERM := 1 }] } := by decide

/-- Lookup by id commutes with an id-preserving transformation of the world:
the first resource carrying the id is transformed in place. -/
theorem find_map_pres (w : List RemoteResource) (i : Nat)
    (g : RemoteResource → RemoteResource)
    (hg : ∀ r, (g r).NODEBALANCERID = r.NODEBALANCERID) (nb : RemoteResource)
    (h : w.find? (fun r => r.NODEBALANCERID == i) = some nb) :
    (w.map g).find? (fun r => r.NODEBALANCERID == i) = some (g nb) := by
  induction w with
  | nil => simp at h
  | cons a t ih =>
    by_cases ha : a.NODEBALANCERID = i
    · rw [List.find?_cons_of_pos _ (by simp [ha])] at h
      cases h
      rw [List.map_cons, List.find?_cons_of_pos _ (by simp [hg, ha])]
    · rw [List.find?_cons_of_neg _ (by simp [ha])] at h
      rw [List.map_cons, List.find?_cons_of_neg _ (by simp [hg, ha])]
      exact ih h

/-- In a world without duplicate ids, lookup by a member's own id returns
exactly that member. -/
theorem find_by_id_of_mem (w : List RemoteResource) (nb : RemoteResource)
    (hnod : (w.map (fun r => r.NODEBALANCERID)).Nodup) (hmem : nb ∈ w) :
    w.find? (fun r => r.NODEBALANCERID == nb.NODEBALANCERID) = some nb := by
  induction w with
  | nil => simp at hmem
  | cons a t ih =>
    rw [List.map_cons, List.nodup_cons] at hnod
    rcases List.mem_cons.mp hmem with h | h
    · subst h
      exact List.find?_cons_of_pos _ (by simp)
    · by_cases ha : a.NODEBALANCERID = nb.NODEBALANCERID
      · exfalso
        apply hnod.1
        rw [ha]
        exact List.mem_map_of_mem _ h
      · rw [List.find?_cons_of_neg _ (by simp [ha])]
        exact ih hnod.2 h

/-- A resource appended to a world in which nothing satisfies the predicate
is what `find?` returns. -/
theorem find_append_fresh (w : List RemoteResource) (r0 : RemoteResource)
    (p : RemoteResource → Bool) (hw : ∀ r ∈ w, p r = false) (h0 : p r0 = true) :
    (w ++ [r0]).find? p = some r0 := by
  induction w with
  | nil =>
    rw [List.nil_append]
    exact List.find?_cons_of_pos _ h0
  | cons a t ih =>
    rw [List.cons_append, List.find?_cons_of_neg _ (by simp [hw a (by simp)])]
    exact ih (fun r hr => hw r (List.mem_cons_of_mem _ hr))

/-- A fixed concrete remote resource used by the concrete witnesses. -/
def wr1 : RemoteResource :=
  { NODEBALANCERID := 1, LABEL := "a", CLIENTCONNTHROTTLE := 5
    DATACENTERID := 7, PAYMENTTERM := 1 }

/-- A concrete error-free environment over a given world, used by the
concrete witnesses. -/
def wenvOf (w : List RemoteResource) : Env :=
  { world := w, nextId := 100, lookupErr := none, refetchErr := none
    updateErr := none, createErr := none, deleteErr := none }

/-- **C1.** For every existing resource whose remote label equals the desired
name and whose remote client_conn_throttle equals the desired throttle, with
desired state present, reconcile issues zero write calls (no create, update,
or delete), returns that resource unchanged, and reports `changed=false`. -/
theorem C1_converged_noop (env : Env) (name : Option String)
    (node_balancer_id : Option Nat) (dc pt cct : Int) (nb : RemoteResource)
    (hle : env.lookupErr = none)
    (hfind : linode_find_nodebalancer env.world node_balancer_id name = some nb)
    (hlabel : some nb.LABEL = name)
    (hthrottle : nb.CLIENTCONNTHROTTLE = cct) :
    ((linodeNodeBalancers env "present" name node_balancer_id dc pt cct).calls.filter
        isWrite = []) ∧
    (linodeNodeBalancers env "present" name node_balancer_id dc pt cct).result
      = .ok { changed := false, «instance» := some nb, instances := [some nb] } ∧
    (linodeNodeBalancers env "present" name node_balancer_id dc pt cct).env = env := by
  subst hlabel
  subst hthrottle
  simp [linodeNodeBalancers, hle, hfind, isWrite]

/-- Concrete witness for C1: a one-resource world already matching the
desired name and throttle. -/
theorem C1_converged_noop_witness :
    ((linodeNodeBalancers (wenvOf [wr1]) "present" (some "a") none 7 1 5).calls.filter
        isWrite = []) ∧
    (linodeNodeBalancers (wenvOf [wr1]) "present" (some "a") none 7 1 5).result
      = .ok { changed := false, «instance» := some wr1, instances := [some wr1] } ∧
    (linodeNodeBalancers (wenvOf [wr1]) "present" (some "a") none 7 1 5).env
      = wenvOf [wr1] :=
  C1_converged_noop (wenvOf [wr1]) (some "a") none 7 1 5 wr1 rfl (by decide)
    (by decide) (by decide)

/-- **C2.** Whenever the resource exists, desired state is present, and the
diff (label differs or throttle differs) is non-empty, exactly one update
call is issued; it carries the `Label` field only if the label differs,
always carries `ClientConnThrottle` regardless of whether it changed, and
never carries `DatacenterID` or `PaymentTerm`; after the update the final
reported label equals the desired label. The desired name is quantified as
a string, per the spec's `DesiredSpec.label : string` (the null-name
id-only invocation is analysed separately). -/
theorem C2_update_on_diff (env : Env) (lbl : String)
    (node_balancer_id : Option Nat) (dc pt cct : Int) (nb : RemoteResource)
    (hle : env.lookupErr = none) (hue : env.updateErr = none)
    (hre : env.refetchErr = none)
    (hnod : (env.world.map (fun r => r.NODEBALANCERID)).Nodup)
    (hfind : linode_find_nodebalancer env.world node_balancer_id (some lbl) = some nb)
    (hdiff : some nb.LABEL ≠ some lbl ∨ nb.CLIENTCONNTHROTTLE ≠ cct) :
    ((linodeNodeBalancers env "present" (some lbl) node_balancer_id dc pt cct).calls.filter
        isWrite
      = [ApiCall.update
          { NodeBalancerID := nb.NODEBALANCERID
            ClientConnThrottle := some cct
            Label := if some nb.LABEL ≠ some lbl then some (some lbl) else none
            DatacenterID := none
            PaymentTerm := none }]) ∧
    (linodeNodeBalancers env "present" (some lbl) node_balancer_id dc pt cct).result
      = .ok { changed := true
              «instance» := some { nb with LABEL := lbl, CLIENTCONNTHROTTLE := cct }
              instances := [some { nb with LABEL := lbl, CLIENTCONNTHROTTLE := cct }] } := by
  have hmem : nb ∈ env.world := by
    unfold linode_find_nodebalancer at hfind
    cases node_balancer_id with
    | some i => exact List.mem_of_find?_eq_some hfind
    | none => exact List.mem_of_find?_eq_some hfind
  have hbyid : env.world.find? (fun r => r.NODEBALANCERID == nb.NODEBALANCERID)
      = some nb := find_by_id_of_mem env.world nb hnod hmem
  have hupd : ∀ c : UpdateCall, c.NodeBalancerID = nb.NODEBALANCERID →
      (nodebalancer_update_world env.world c).find?
        (fun r => r.NODEBALANCERID == nb.NODEBALANCERID) = some (updFn c nb) := by
    intro c hc
    have hg : ∀ r : RemoteResource,
        ((if r.NODEBALANCERID = c.NodeBalancerID then updFn c r
          else r)).NODEBALANCERID = r.NODEBALANCERID := by
      intro r
      by_cases h : r.NODEBALANCERID = c.NodeBalancerID <;> simp [h, updFn]
    have := find_map_pres env.world nb.NODEBALANCERID
      (fun r => if r.NODEBALANCERID = c.NodeBalancerID then updFn c r else r)
      hg nb hbyid
    unfold nodebalancer_update_world
    rw [this]
    simp [hc]
  have hres : ∀ c : UpdateCall,
      c.Label = (if some nb.LABEL ≠ some lbl then some (some lbl) else none) →
      c.ClientConnThrottle = some cct →
      updFn c nb = { nb with LABEL := lbl, CLIENTCONNTHROTTLE := cct } := by
    intro c hcl hct
    by_cases h : some nb.LABEL ≠ some lbl
    · rw [if_pos h] at hcl
      simp [updFn, hcl, hct, applyLabelValue]
    · have hl : nb.LABEL = lbl := by simpa using not_ne_iff.mp h
      rw [if_neg h] at hcl
      simp [updFn, hcl, hct, hl]
  simp only [linodeNodeBalancers, hle, hfind]
  rw [if_pos trivial, if_pos hdiff]
  simp only [hue, hre, linode_find_nodebalancer]
  rw [hupd _ rfl, hres _ rfl rfl]
  simp [isWrite]

/-- Concrete witness for C2: a one-resource world whose label differs from
the desired name. -/
theorem C2_update_on_diff_witness :
    ((linodeNodeBalancers (wenvOf [wr1]) "present" (some "b") (some 1) 7 1 5).calls.filter
        isWrite
      = [ApiCall.update
          { NodeBalancerID := wr1.NODEBALANCERID
            ClientConnThrottle := some 5
            Label := if some wr1.LABEL ≠ some "b" then some (some "b") else none
            DatacenterID := none
            PaymentTerm := none }]) ∧
    (linodeNodeBalancers (wenvOf [wr1]) "present" (some "b") (some 1) 7 1 5).result
      = .ok { changed := true
              «instance» := some { wr1 with LABEL := "b", CLIENTCONNTHROTTLE := 5 }
              instances := [some { wr1 with LABEL := "b", CLIENTCONNTHROTTLE := 5 }] } :=
  C2_update_on_diff (wenvOf [wr1]) "b" (some 1) 7 1 5 wr1 rfl rfl rfl (by decide)
    (by decide) (by decide)

/-- **C3.** For every desired spec with state present and no existing
matching resource, exactly one create call is issued, carrying exactly the
`DatacenterID`, `PaymentTerm` and `Label` fields (`ClientConnThrottle` is
not sent at creation); the created resource is then re-fetched by its
assigned id, `changed=true` is reported, and the final resource's label,
datacenter and payment term equal the desired values while its throttle
equals the baseline 0. The desired name is a string per the spec's
`DesiredSpec`; the fresh-id hypothesis is the remote system's guarantee
that the assigned id is new. -/
theorem C3_create_when_absent (env : Env) (lbl : String)
    (node_balancer_id : Option Nat) (dc pt cct : Int)
    (hle : env.lookupErr = none) (hce : env.createErr = none)
    (hre : env.refetchErr = none)
    (hfresh : ∀ r ∈ env.world, r.NODEBALANCERID ≠ env.nextId)
    (hfind : linode_find_nodebalancer env.world node_balancer_id (some lbl) = none) :
    ((linodeNodeBalancers env "present" (some lbl) node_balancer_id dc pt cct).calls
      = [ApiCall.lookup node_balancer_id (some lbl),
         ApiCall.create
           { DatacenterID := some dc, PaymentTerm := some pt
             Label := some (some lbl), ClientConnThrottle := none },
         ApiCall.lookup (some env.nextId) (some lbl)]) ∧
    (linodeNodeBalancers env "present" (some lbl) node_balancer_id dc pt cct).result
      = .ok { changed := true
              «instance» := some { NODEBALANCERID := env.nextId, LABEL := lbl
                                   CLIENTCONNTHROTTLE := 0, DATACENTERID := dc
                                   PAYMENTTERM := pt }
              instances := [some { NODEBALANCERID := env.nextId, LABEL := lbl
                                   CLIENTCONNTHROTTLE := 0, DATACENTERID := dc
                                   PAYMENTTERM := pt }] } := by
  have hfetch : ∀ c : CreateCall,
      (env.world ++ [createdResource env.nextId c]).find?
        (fun r => r.NODEBALANCERID == env.nextId) = some (createdResource env.nextId c) := by
    intro c
    apply find_append_fresh
    · intro r hr
      simp [hfresh r hr]
    · simp [createdResource]
  have hid : ∀ c : CreateCall, (createdResource env.nextId c).NODEBALANCERID = env.nextId :=
    fun c => rfl
  simp only [linodeNodeBalancers, hle, hfind]
  rw [if_pos trivial]
  simp only [hce, hre, hid, linode_find_nodebalancer]
  rw [hfetch _]
  simp [createdResource, applyLabelValue]

/-- Concrete witness for C3: creation in an empty world. -/
theorem C3_create_when_absent_witness :
    ((linodeNodeBalancers (wenvOf []) "present" (some "c") none 3 12 9).calls
      = [ApiCall.lookup none (some "c"),
         ApiCall.create
           { DatacenterID := some 3, PaymentTerm := some 12
             Label := some (some "c"), ClientConnThrottle := none },
         ApiCall.lookup (some (wenvOf []).nextId) (some "c")]) ∧
    (linodeNodeBalancers (wenvOf []) "present" (some "c") none 3 12 9).result
      = .ok { changed := true
              «instance» := some { NODEBALANCERID := (wenvOf []).nextId, LABEL := "c"
                                   CLIENTCONNTHROTTLE := 0, DATACENTERID := 3
                                   PAYMENTTERM := 12 }
              instances := [some { NODEBALANCERID := (wenvOf []).nextId, LABEL := "c"
                                   CLIENTCONNTHROTTLE := 0, DATACENTERID := 3
                                   PAYMENTTERM := 12 }] } :=
  C3_create_when_absent (wenvOf []) "c" none 3 12 9 rfl rfl rfl (by simp [wenvOf])
    (by decide)

/-- **C4.** When desired state is absent and the resource exists, exactly
one delete call is issued (by the resource's id), `changed=true` is
reported, and the final resource is none; when desired state is absent and
no resource exists, zero remote write calls are issued and `changed=false`
is reported with final resource none. -/
theorem C4_absent (env : Env) (name : Option String) (node_balancer_id : Option Nat)
    (dc pt cct : Int)
    (hle : env.lookupErr = none) :
    (∀ nb : RemoteResource, env.deleteErr = none →
      linode_find_nodebalancer env.world node_balancer_id name = some nb →
      (linodeNodeBalancers env "absent" name node_balancer_id dc pt cct).calls
        = [ApiCall.lookup node_balancer_id name, ApiCall.delete nb.NODEBALANCERID] ∧
      (linodeNodeBalancers env "absent" name node_balancer_id dc pt cct).result
        = .ok { changed := true, «instance» := none, instances := [none] }) ∧
    (linode_find_nodebalancer env.world node_balancer_id name = none →
      ((linodeNodeBalancers env "absent" name node_balancer_id dc pt cct).calls.filter
          isWrite = []) ∧
      (linodeNodeBalancers env "absent" name node_balancer_id dc pt cct).result
        = .ok { changed := false, «instance» := none, instances := [none] }) := by
  constructor
  · intro nb hde hfind
    simp [linodeNodeBalancers, hle, hfind, hde, isWrite]
  · intro hfind
    simp [linodeNodeBalancers, hle, hfind, isWrite]

/-- Concrete witness for C4: deletion of an existing resource, and a no-op
on an empty world. -/
theorem C4_absent_witness :
    ((linodeNodeBalancers (wenvOf [wr1]) "absent" (some "a") none 7 1 0).calls
      = [ApiCall.lookup none (some "a"), ApiCall.delete wr1.NODEBALANCERID] ∧
     (linodeNodeBalancers (wenvOf [wr1]) "absent" (some "a") none 7 1 0).result
      = .ok { changed := true, «instance» := none, instances := [none] }) ∧
    (((linodeNodeBalancers (wenvOf []) "absent" (some "a") none 7 1 0).calls.filter
        isWrite = []) ∧
     (linodeNodeBalancers (wenvOf []) "absent" (some "a") none 7 1 0).result
      = .ok { changed := false, «instance» := none, instances := [none] }) :=
  ⟨(C4_absent (wenvOf [wr1]) (some "a") none 7 1 0 rfl).1 wr1 rfl (by decide),
   (C4_absent (wenvOf []) (some "a") none 7 1 0 rfl).2 (by decide)⟩

/-- **C5.** If the initial lookup fails with a remote API error, reconcile
issues no write call and propagates the error translated by
`handle_api_error` (carrying the provider error code and message), leaving
the remote world untouched; and any remote-call error — at the lookup, the
update, the create, the delete or the post-write re-fetch — aborts the
remaining steps of reconcile immediately, so no partial success is ever
reported: a successful `exit_json` requires every issued call, the re-fetch
included (the re-fetch is any lookup after the initial one, i.e. in the
tail of the trace), to have had no armed error; a failing write is the last
call of its run — nothing, in particular no re-fetch, follows it — and
yields the translated error with the world untouched; and a failing
re-fetch yields the translated error rather than a success. -/
theorem C5_error_aborts (env : Env) (state : String) (name : Option String)
    (node_balancer_id : Option Nat) (dc pt cct : Int) :
    (∀ e : ApiErr, env.lookupErr = some e →
      (linodeNodeBalancers env state name node_balancer_id dc pt cct).calls
        = [ApiCall.lookup node_balancer_id name] ∧
      ((linodeNodeBalancers env state name node_balancer_id dc pt cct).calls.filter
          isWrite = []) ∧
      (linodeNodeBalancers env state name node_balancer_id dc pt cct).result
        = .error (handle_api_error e) ∧
      (linodeNodeBalancers env state name node_balancer_id dc pt cct).env = env) ∧
    (∀ j : ExitJson,
      (linodeNodeBalancers env state name node_balancer_id dc pt cct).result = .ok j →
      env.lookupErr = none ∧
      (∀ c : UpdateCall,
        ApiCall.update c ∈ (linodeNodeBalancers env state name node_balancer_id dc pt cct).calls →
        env.updateErr = none) ∧
      (∀ c : CreateCall,
        ApiCall.create c ∈ (linodeNodeBalancers env state name node_balancer_id dc pt cct).calls →
        env.createErr = none) ∧
      (∀ i : Nat,
        ApiCall.delete i ∈ (linodeNodeBalancers env state name node_balancer_id dc pt cct).calls →
        env.deleteErr = none) ∧
      (∀ (i : Option Nat) (nm : Option String),
        ApiCall.lookup i nm
          ∈ (linodeNodeBalancers env state name node_balancer_id dc pt cct).calls.tail →
        env.refetchErr = none)) ∧
    (∀ (e : ApiErr) (c : UpdateCall), env.updateErr = some e →
      ApiCall.update c ∈ (linodeNodeBalancers env state name node_balancer_id dc pt cct).calls →
      (linodeNodeBalancers env state name node_balancer_id dc pt cct).result
        = .error (handle_api_error e) ∧
      (linodeNodeBalancers env state name node_balancer_id dc pt cct).calls.getLast?
        = some (ApiCall.update c) ∧
      (linodeNodeBalancers env state name node_balancer_id dc pt cct).env = env) ∧
    (∀ (e : ApiErr) (c : CreateCall), env.createErr = some e →
      ApiCall.create c ∈ (linodeNodeBalancers env state name node_balancer_id dc pt cct).calls →
      (linodeNodeBalancers env state name node_balancer_id dc pt cct).result
        = .error (handle_api_error e) ∧
      (linodeNodeBalancers env state name node_balancer_id dc pt cct).calls.getLast?
        = some (ApiCall.create c) ∧
      (linodeNodeBalancers env state name node_balancer_id dc pt cct).env = env) ∧
    (∀ (e : ApiErr) (i : Nat), env.deleteErr = some e →
      ApiCall.delete i ∈ (linodeNodeBalancers env state name node_balancer_id dc pt cct).calls →
      (linodeNodeBalancers env state name node_balancer_id dc pt cct).result
        = .error (handle_api_error e) ∧
      (linodeNodeBalancers env state name node_balancer_id dc pt cct).calls.getLast?
        = some (ApiCall.delete i) ∧
      (linodeNodeBalancers env state name node_balancer_id dc pt cct).env = env) ∧
    (∀ (e : ApiErr) (i : Option Nat) (nm : Option String), env.refetchErr = some e →
      ApiCall.lookup i nm
        ∈ (linodeNodeBalancers env state name node_balancer_id dc pt cct).calls.tail →
      (linodeNodeBalancers env state name node_balancer_id dc pt cct).result
        = .error (handle_api_error e)) := by
  refine ⟨?_, ?_, ?_, ?_, ?_, ?_⟩
  · intro e he
    simp [linodeNodeBalancers, he, isWrite]
  · intro j hok
    rcases hle : env.lookupErr with _ | e
    · refine ⟨rfl, ?_⟩
      rcases hf : linode_find_nodebalancer env.world node_balancer_id name with _ | nb
      · by_cases hs : state = "present"
        · subst hs
          rcases hc : env.createErr with _ | e
          · rcases hr : env.refetchErr with _ | e
            · refine ⟨?_, ?_, ?_, ?_⟩ <;> simp [linodeNodeBalancers, hle, hf, hc, hr]
            · exfalso
              simp [linodeNodeBalancers, hle, hf, hc, hr] at hok
          · exfalso
            simp [linodeNodeBalancers, hle, hf, hc] at hok
        · refine ⟨?_, ?_, ?_, ?_⟩ <;> simp [linodeNodeBalancers, hle, hf, hs]
      · by_cases hs : state = "present"
        · subst hs
          by_cases hd : (some nb.LABEL ≠ name ∨ nb.CLIENTCONNTHROTTLE ≠ cct)
          · rcases hu : env.updateErr with _ | e
            · rcases hr : env.refetchErr with _ | e
              · refine ⟨?_, ?_, ?_, ?_⟩ <;> simp [linodeNodeBalancers, hle, hf, hd, hu, hr]
              · exfalso
                simp [linodeNodeBalancers, hle, hf, hd, hu, hr] at hok
            · exfalso
              simp [linodeNodeBalancers, hle, hf, hd, hu] at hok
          · refine ⟨?_, ?_, ?_, ?_⟩ <;> simp [linodeNodeBalancers, hle, hf, hd]
        · by_cases hs2 : state = "absent"
          · subst hs2
            rcases hdel : env.deleteErr with _ | e
            · refine ⟨?_, ?_, ?_, ?_⟩ <;> simp [linodeNodeBalancers, hle, hf, hdel]
            · exfalso
              simp [linodeNodeBalancers, hle, hf, hdel] at hok
          · refine ⟨?_, ?_, ?_, ?_⟩ <;> simp [linodeNodeBalancers, hle, hf, hs, hs2]
    · exfalso
      simp [linodeNodeBalancers, hle] at hok
  · intro e c he hc
    rcases hle : env.lookupErr with _ | e'
    · rcases hf : linode_find_nodebalancer env.world node_balancer_id name with _ | nb
      · by_cases hs : state = "present"
        · subst hs
          rcases hcr : env.createErr with _ | e'
          · rcases hr : env.refetchErr with _ | e'
            · exfalso
              simp [linodeNodeBalancers, hle, hf, hcr, hr] at hc
            · exfalso
              simp [linodeNodeBalancers, hle, hf, hcr, hr] at hc
          · exfalso
            simp [linodeNodeBalancers, hle, hf, hcr] at hc
        · exfalso
          simp [linodeNodeBalancers, hle, hf, hs] at hc
      · by_cases hs : state = "present"
        · subst hs
          by_cases hd : (some nb.LABEL ≠ name ∨ nb.CLIENTCONNTHROTTLE ≠ cct)
          · have hc' : c =
                { NodeBalancerID := nb.NODEBALANCERID
                  ClientConnThrottle := some cct
                  Label := if some nb.LABEL ≠ name then some name else none
                  DatacenterID := none
                  PaymentTerm := none } := by
              simpa [linodeNodeBalancers, hle, hf, hd, he] using hc
            subst hc'
            refine ⟨?_, ?_, ?_⟩ <;>
              simp [linodeNodeBalancers, hle, hf, hd, he, List.getLast?]
          · exfalso
            simp [linodeNodeBalancers, hle, hf, hd] at hc
        · by_cases hs2 : state = "absent"
          · subst hs2
            rcases hdel : env.deleteErr with _ | e' <;>
              · exfalso
                simp [linodeNodeBalancers, hle, hf, hdel] at hc
          · exfalso
            simp [linodeNodeBalancers, hle, hf, hs, hs2] at hc
    · exfalso
      simp [linodeNodeBalancers, hle] at hc
  · intro e c he hc
    rcases hle : env.lookupErr with _ | e'
    · rcases hf : linode_find_nodebalancer env.world node_balancer_id name with _ | nb
      · by_cases hs : state = "present"
        · subst hs
          have hc' : c =
              { DatacenterID := some dc
                PaymentTerm := some pt
                Label := some name
                ClientConnThrottle := none } := by
            simpa [linodeNodeBalancers, hle, hf, he] using hc
          subst hc'
          refine ⟨?_, ?_, ?_⟩ <;>
            simp [linodeNodeBalancers, hle, hf, he, List.getLast?]
        · exfalso
          simp [linodeNodeBalancers, hle, hf, hs] at hc
      · by_cases hs : state = "present"
        · subst hs
          by_cases hd : (some nb.LABEL ≠ name ∨ nb.CLIENTCONNTHROTTLE ≠ cct)
          · rcases hu : env.updateErr with _ | e'
            · rcases hr : env.refetchErr with _ | e'
              · exfalso
                simp [linodeNodeBalancers, hle, hf, hd, hu, hr] at hc
              · exfalso
                simp [linodeNodeBalancers, hle, hf, hd, hu, hr] at hc
            · exfalso
              simp [linodeNodeBalancers, hle, hf, hd, hu] at hc
          · exfalso
            simp [linodeNodeBalancers, hle, hf, hd] at hc
        · by_cases hs2 : state = "absent"
          · subst hs2
            rcases hdel : env.deleteErr with _ | e' <;>
              · exfalso
                simp [linodeNodeBalancers, hle, hf, hdel] at hc
          · exfalso
            simp [linodeNodeBalancers, hle, hf, hs, hs2] at hc
    · exfalso
      simp [linodeNodeBalancers, hle] at hc
  · intro e i he hc
    rcases hle : env.lookupErr with _ | e'
    · rcases hf : linode_find_nodebalancer env.world node_balancer_id name with _ | nb
      · by_cases hs : state = "present"
        · subst hs
          rcases hcr : env.createErr with _ | e'
          · rcases hr : env.refetchErr with _ | e'
            · exfalso
              simp [linodeNodeBalancers, hle, hf, hcr, hr] at hc
            · exfalso
              simp [linodeNodeBalancers, hle, hf, hcr, hr] at hc
          · exfalso
            simp [linodeNodeBalancers, hle, hf, hcr] at hc
        · exfalso
          simp [linodeNodeBalancers, hle, hf, hs] at hc
      · by_cases hs : state = "present"
        · subst hs
          by_cases hd : (some nb.LABEL ≠ name ∨ nb.CLIENTCONNTHROTTLE ≠ cct)
          · rcases hu : env.updateErr with _ | e'
            · rcases hr : env.refetchErr with _ | e'
              · exfalso
                simp [linodeNodeBalancers, hle, hf, hd, hu, hr] at hc
              · exfalso
                simp [linodeNodeBalancers, hle, hf, hd, hu, hr] at hc
            · exfalso
              simp [linodeNodeBalancers, hle, hf, hd, hu] at hc
          · exfalso
            simp [linodeNodeBalancers, hle, hf, hd] at hc
        · by_cases hs2 : state = "absent"
          · subst hs2
            have hi : i = nb.NODEBALANCERID := by
              simpa [linodeNodeBalancers, hle, hf, he] using hc
            subst hi
            refine ⟨?_, ?_, ?_⟩ <;>
              simp [linodeNodeBalancers, hle, hf, he, List.getLast?]
          · exfalso
            simp [linodeNodeBalancers, hle, hf, hs, hs2] at hc
    · exfalso
      simp [linodeNodeBalancers, hle] at hc
  · intro e i nm he hmem
    rcases hle : env.lookupErr with _ | e'
    · rcases hf : linode_find_nodebalancer env.world node_balancer_id name with _ | nb
      · by_cases hs : state = "present"
        · subst hs
          rcases hcr : env.createErr with _ | e'
          · simp [linodeNodeBalancers, hle, hf, hcr, he]
          · exfalso
            simp [linodeNodeBalancers, hle, hf, hcr] at hmem
        · exfalso
          simp [linodeNodeBalancers, hle, hf, hs] at hmem
      · by_cases hs : state = "present"
        · subst hs
          by_cases hd : (some nb.LABEL ≠ name ∨ nb.CLIENTCONNTHROTTLE ≠ cct)
          · rcases hu : env.updateErr with _ | e'
            · simp [linodeNodeBalancers, hle, hf, hd, hu, he]
            · exfalso
              simp [linodeNodeBalancers, hle, hf, hd, hu] at hmem
          · exfalso
            simp [linodeNodeBalancers, hle, hf, hd] at hmem
        · by_cases hs2 : state = "absent"
          · subst hs2
            rcases hdel : env.deleteErr with _ | e' <;>
              · exfalso
                simp [linodeNodeBalancers, hle, hf, hdel] at hmem
          · exfalso
            simp [linodeNodeBalancers, hle, hf, hs, hs2] at hmem
    · exfalso
      simp [linodeNodeBalancers, hle] at hmem

/-- Concrete witness for C5: a failing lookup in a one-resource world, a
successful converged run, a failing update, a failing create, a failing
delete and a failing re-fetch, each at a concrete input. -/
theorem C5_error_aborts_witness :
    ((linodeNodeBalancers
        { wenvOf [wr1] with lookupErr := some { ERRORCODE := 5, ERRORMESSAGE := "boom" } }
        "present" (some "a") none 7 1 5).calls
      = [ApiCall.lookup none (some "a")] ∧
     ((linodeNodeBalancers
        { wenvOf [wr1] with lookupErr := some { ERRORCODE := 5, ERRORMESSAGE := "boom" } }
        "present" (some "a") none 7 1 5).calls.filter isWrite = []) ∧
     (linodeNodeBalancers
        { wenvOf [wr1] with lookupErr := some { ERRORCODE := 5, ERRORMESSAGE := "boom" } }
        "present" (some "a") none 7 1 5).result
      = .error (handle_api_error { ERRORCODE := 5, ERRORMESSAGE := "boom" }) ∧
     (linodeNodeBalancers
        { wenvOf [wr1] with lookupErr := some { ERRORCODE := 5, ERRORMESSAGE := "boom" } }
        "present" (some "a") none 7 1 5).env
      = { wenvOf [wr1] with lookupErr := some { ERRORCODE := 5, ERRORMESSAGE := "boom" } }) ∧
    ((wenvOf [wr1]).lookupErr = none ∧
     (∀ c : UpdateCall,
       ApiCall.update c ∈ (linodeNodeBalancers (wenvOf [wr1]) "present" (some "a") none 7 1 5).calls →
       (wenvOf [wr1]).updateErr = none) ∧
     (∀ c : CreateCall,
       ApiCall.create c ∈ (linodeNodeBalancers (wenvOf [wr1]) "present" (some "a") none 7 1 5).calls →
       (wenvOf [wr1]).createErr = none) ∧
     (∀ i : Nat,
       ApiCall.delete i ∈ (linodeNodeBalancers (wenvOf [wr1]) "present" (some "a") none 7 1 5).calls →
       (wenvOf [wr1]).deleteErr = none) ∧
     (∀ (i : Option Nat) (nm : Option String),
       ApiCall.lookup i nm
         ∈ (linodeNodeBalancers (wenvOf [wr1]) "present" (some "a") none 7 1 5).calls.tail →
       (wenvOf [wr1]).refetchErr = none)) ∧
    ((linodeNodeBalancers
        { wenvOf [wr1] with updateErr := some { ERRORCODE := 7, ERRORMESSAGE := "u" } }
        "present" (some "b") (some 1) 7 1 5).result
      = .error (handle_api_error { ERRORCODE := 7, ERRORMESSAGE := "u" }) ∧
     (linodeNodeBalancers
        { wenvOf [wr1] with updateErr := some { ERRORCODE := 7, ERRORMESSAGE := "u" } }
        "present" (some "b") (some 1) 7 1 5).calls.getLast?
      = some (ApiCall.update
          { NodeBalancerID := 1, ClientConnThrottle := some 5
            Label := some (some "b"), DatacenterID := none, PaymentTerm := none }) ∧
     (linodeNodeBalancers
        { wenvOf [wr1] with updateErr := some { ERRORCODE := 7, ERRORMESSAGE := "u" } }
        "present" (some "b") (some 1) 7 1 5).env
      = { wenvOf [wr1] with updateErr := some { ERRORCODE := 7, ERRORMESSAGE := "u" } }) ∧
    ((linodeNodeBalancers
        { wenvOf [] with createErr := some { ERRORCODE := 8, ERRORMESSAGE := "c" } }
        "present" (some "c") none 3 12 9).result
      = .error (handle_api_error { ERRORCODE := 8, ERRORMESSAGE := "c" }) ∧
     (linodeNodeBalancers
        { wenvOf [] with createErr := some { ERRORCODE := 8, ERRORMESSAGE := "c" } }
        "present" (some "c") none 3 12 9).calls.getLast?
      = some (ApiCall.create
          { DatacenterID := some 3, PaymentTerm := some 12
            Label := some (some "c"), ClientConnThrottle := none }) ∧
     (linodeNodeBalancers
        { wenvOf [] with createErr := some { ERRORCODE := 8, ERRORMESSAGE := "c" } }
        "present" (some "c") none 3 12 9).env
      = { wenvOf [] with createErr := some { ERRORCODE := 8, ERRORMESSAGE := "c" } }) ∧
    ((linodeNodeBalancers
        { wenvOf [wr1] with deleteErr := some { ERRORCODE := 9, ERRORMESSAGE := "d" } }
        "absent" (some "a") none 7 1 0).result
      = .error (handle_api_error { ERRORCODE := 9, ERRORMESSAGE := "d" }) ∧
     (linodeNodeBalancers
        { wenvOf [wr1] with deleteErr := some { ERRORCODE := 9, ERRORMESSAGE := "d" } }
        "absent" (some "a") none 7 1 0).calls.getLast?
      = some (ApiCall.delete 1) ∧
     (linodeNodeBalancers
        { wenvOf [wr1] with deleteErr := some { ERRORCODE := 9, ERRORMESSAGE := "d" } }
        "absent" (some "a") none 7 1 0).env
      = { wenvOf [wr1] with deleteErr := some { ERRORCODE := 9, ERRORMESSAGE := "d" } }) ∧
    (linodeNodeBalancers
        { wenvOf [wr1] with refetchErr := some { ERRORCODE := 10, ERRORMESSAGE := "r" } }
        "present" (some "b") (some 1) 7 1 5).result
      = .error (handle_api_error { ERRORCODE := 10, ERRORMESSAGE := "r" }) :=
  ⟨(C5_error_aborts
      { wenvOf [wr1] with lookupErr := some { ERRORCODE := 5, ERRORMESSAGE := "boom" } }
      "present" (some "a") none 7 1 5).1 { ERRORCODE := 5, ERRORMESSAGE := "boom" } rfl,
   (C5_error_aborts (wenvOf [wr1]) "present" (some "a") none 7 1 5).2.1
     { changed := false, «instance» := some wr1, instances := [some wr1] } (by decide),
   (C5_error_aborts
      { wenvOf [wr1] with updateErr := some { ERRORCODE := 7, ERRORMESSAGE := "u" } }
      "present" (some "b") (some 1) 7 1 5).2.2.1 { ERRORCODE := 7, ERRORMESSAGE := "u" }
     { NodeBalancerID := 1, ClientConnThrottle := some 5
       Label := some (some "b"), DatacenterID := none, PaymentTerm := none }
     rfl (by decide),
   (C5_error_aborts
      { wenvOf [] with createErr := some { ERRORCODE := 8, ERRORMESSAGE := "c" } }
      "present" (some "c") none 3 12 9).2.2.2.1 { ERRORCODE := 8, ERRORMESSAGE := "c" }
     { DatacenterID := some 3, PaymentTerm := some 12
       Label := some (some "c"), ClientConnThrottle := none }
     rfl (by decide),
   (C5_error_aborts
      { wenvOf [wr1] with deleteErr := some { ERRORCODE := 9, ERRORMESSAGE := "d" } }
      "absent" (some "a") none 7 1 0).2.2.2.2.1 { ERRORCODE := 9, ERRORMESSAGE := "d" }
     1 rfl (by decide),
   (C5_error_aborts
      { wenvOf [wr1] with refetchErr := some { ERRORCODE := 10, ERRORMESSAGE := "r" } }
      "present" (some "b") (some 1) 7 1 5).2.2.2.2.2 { ERRORCODE := 10, ERRORMESSAGE := "r" }
     (some 1) (some "b") rfl (by decide)⟩

/-- **C6, counterexample.** The claim asserts that for every desired spec
two identical runs yield `changed=true` then `changed=false`. With desired
state absent and an empty world, the first run already reports
`changed=false` (and so does the second), refuting the claim at this
input. -/
theorem C6_counterexample :
    (linodeNodeBalancers (wenvOf []) "absent" (some "a") none 7 1 0).result
      = .ok { changed := false, «instance» := none, instances := [none] } ∧
    (linodeNodeBalancers
        (linodeNodeBalancers (wenvOf []) "absent" (some "a") none 7 1 0).env
        "absent" (some "a") none 7 1 0).result
      = .ok { changed := false, «instance» := none, instances := [none] } := by
  decide

/-- **C6 (amended).** Running reconcile twice in succession with an
identical desired spec and no external interference: whenever the first
run succeeds with `changed=false`, the second run is the identical
invocation — it reports `changed=false` again and returns the same final
resource state (a `changed=false` outcome is a fixed point). The original
claim's "changed=true on the first run" does not hold for every desired
spec. -/
theorem C6_second_run_fixed_point (env : Env) (state : String)
    (name : Option String) (node_balancer_id : Option Nat) (dc pt cct : Int)
    (j : ExitJson)
    (hok : (linodeNodeBalancers env state name node_balancer_id dc pt cct).result = .ok j)
    (hch : j.changed = false) :
    linodeNodeBalancers
        (linodeNodeBalancers env state name node_balancer_id dc pt cct).env
        state name node_balancer_id dc pt cct
      = linodeNodeBalancers env state name node_balancer_id dc pt cct := by
  have henv : (linodeNodeBalancers env state name node_balancer_id dc pt cct).env = env := by
    rcases hle : env.lookupErr with _ | e
    · rcases hf : linode_find_nodebalancer env.world node_balancer_id name with _ | nb
      · by_cases hs : state = "present"
        · subst hs
          rcases hc : env.createErr with _ | e
          · rcases hr : env.refetchErr with _ | e
            · exfalso
              simp [linodeNodeBalancers, hle, hf, hc, hr] at hok
              subst hok
              simp at hch
            · exfalso
              simp [linodeNodeBalancers, hle, hf, hc, hr] at hok
          · exfalso
            simp [linodeNodeBalancers, hle, hf, hc] at hok
        · simp [linodeNodeBalancers, hle, hf, hs]
      · by_cases hs : state = "present"
        · subst hs
          by_cases hd : (some nb.LABEL ≠ name ∨ nb.CLIENTCONNTHROTTLE ≠ cct)
          · rcases hu : env.updateErr with _ | e
            · rcases hr : env.refetchErr with _ | e
              · exfalso
                simp [linodeNodeBalancers, hle, hf, hd, hu, hr] at hok
                subst hok
                simp at hch
              · exfalso
                simp [linodeNodeBalancers, hle, hf, hd, hu, hr] at hok
            · exfalso
              simp [linodeNodeBalancers, hle, hf, hd, hu] at hok
          · simp [linodeNodeBalancers, hle, hf, hd]
        · by_cases hs2 : state = "absent"
          · subst hs2
            rcases hdel : env.deleteErr with _ | e
            · exfalso
              simp [linodeNodeBalancers, hle, hf, hdel] at hok
              subst hok
              simp at hch
            · exfalso
              simp [linodeNodeBalancers, hle, hf, hdel] at hok
          · simp [linodeNodeBalancers, hle, hf, hs, hs2]
    · exfalso
      simp [linodeNodeBalancers, hle] at hok
  rw [henv]

/-- Concrete witness for the amended C6: a converged one-resource world;
the first run reports `changed=false` and the second run is identical. -/
theorem C6_second_run_fixed_point_witness :
    linodeNodeBalancers
        (linodeNodeBalancers (wenvOf [wr1]) "present" (some "a") none 7 1 5).env
        "present" (some "a") none 7 1 5
      = linodeNodeBalancers (wenvOf [wr1]) "present" (some "a") none 7 1 5 :=
  C6_second_run_fixed_point (wenvOf [wr1]) "present" (some "a") none 7 1 5
    { changed := false, «instance» := some wr1, instances := [some wr1] }
    (by decide) rfl

/-- **C7.** Every invocation performs at most 3 sequential remote calls in
total: it starts with the one lookup, issues at most one write (create,
update, or delete), and at most one re-fetch lookup; no path issues more. -/
theorem C7_at_most_three_calls (env : Env) (state : String) (name : Option String)
    (node_balancer_id : Option Nat) (dc pt cct : Int) :
    (linodeNodeBalancers env state name node_balancer_id dc pt cct).calls.length ≤ 3 ∧
    ((linodeNodeBalancers env state name node_balancer_id dc pt cct).calls.filter
        isWrite).length ≤ 1 ∧
    ((linodeNodeBalancers env state name node_balancer_id dc pt cct).calls.filter
        isLookup).length ≤ 2 ∧
    (linodeNodeBalancers env state name node_balancer_id dc pt cct).calls.head?
      = some (ApiCall.lookup node_balancer_id name) := by
  refine ⟨?_, ?_, ?_, ?_⟩ <;>
    · unfold linodeNodeBalancers
      repeat' split
      all_goals simp [isWrite, isLookup]

/-- **C8.** On every successful run, the emitted `exit_json` payload has
exactly the fields `changed`, `instance` and `instances` (the `ExitJson`
record), and `instances` is always the one-element list whose single
element is the same value as `instance`. -/
theorem C8_instances_singleton (env : Env) (state : String) (name : Option String)
    (node_balancer_id : Option Nat) (dc pt cct : Int) (j : ExitJson)
    (hok : (linodeNodeBalancers env state name node_balancer_id dc pt cct).result = .ok j) :
    j.instances = [j.«instance»] := by
  unfold linodeNodeBalancers at hok
  repeat' split at hok
  all_goals simp at hok
  all_goals subst hok
  all_goals simp

/-- Concrete witness for C8 at a converged concrete run. -/
theorem C8_instances_singleton_witness :
    ({ changed := false, «instance» := some wr1, instances := [some wr1] } : ExitJson).instances
      = [({ changed := false, «instance» := some wr1, instances := [some wr1] } : ExitJson).«instance»] :=
  C8_instances_singleton (wenvOf [wr1]) "present" (some "a") none 7 1 5
    { changed := false, «instance» := some wr1, instances := [some wr1] } (by decide)

/-- **C10.** In every successful run, the reported `changed` flag is true
if and only if at least one write operation (create, update, or delete)
was issued during that run; a run that issues zero writes always reports
`changed=false`. -/
theorem C10_changed_iff_write (env : Env) (state : String) (name : Option String)
    (node_balancer_id : Option Nat) (dc pt cct : Int) (j : ExitJson)
    (hok : (linodeNodeBalancers env state name node_balancer_id dc pt cct).result = .ok j) :
    (j.changed = true ↔
      (linodeNodeBalancers env state name node_balancer_id dc pt cct).calls.filter
        isWrite ≠ []) := by
  rcases hle : env.lookupErr with _ | e
  · rcases hf : linode_find_nodebalancer env.world node_balancer_id name with _ | nb
    · by_cases hs : state = "present"
      · subst hs
        rcases hc : env.createErr with _ | e
        · rcases hr : env.refetchErr with _ | e
          · simp [linodeNodeBalancers, hle, hf, hc, hr] at hok
            subst hok
            simp [linodeNodeBalancers, hle, hf, hc, hr, isWrite]
          · exfalso
            simp [linodeNodeBalancers, hle, hf, hc, hr] at hok
        · exfalso
          simp [linodeNodeBalancers, hle, hf, hc] at hok
      · simp [linodeNodeBalancers, hle, hf, hs] at hok
        subst hok
        simp [linodeNodeBalancers, hle, hf, hs, isWrite]
    · by_cases hs : state = "present"
      · subst hs
        by_cases hd : (some nb.LABEL ≠ name ∨ nb.CLIENTCONNTHROTTLE ≠ cct)
        · rcases hu : env.updateErr with _ | e
          · rcases hr : env.refetchErr with _ | e
            · simp [linodeNodeBalancers, hle, hf, hd, hu, hr] at hok
              subst hok
              simp [linodeNodeBalancers, hle, hf, hd, hu, hr, isWrite]
            · exfalso
              simp [linodeNodeBalancers, hle, hf, hd, hu, hr] at hok
          · exfalso
            simp [linodeNodeBalancers, hle, hf, hd, hu] at hok
        · simp [linodeNodeBalancers, hle, hf, hd] at hok
          subst hok
          simp [linodeNodeBalancers, hle, hf, hd, isWrite]
      · by_cases hs2 : state = "absent"
        · subst hs2
          rcases hdel : env.deleteErr with _ | e
          · simp [linodeNodeBalancers, hle, hf, hdel] at hok
            subst hok
            simp [linodeNodeBalancers, hle, hf, hdel, isWrite]
          · exfalso
            simp [linodeNodeBalancers, hle, hf, hdel] at hok
        · simp [linodeNodeBalancers, hle, hf, hs, hs2] at hok
          subst hok
          simp [linodeNodeBalancers, hle, hf, hs, hs2, isWrite]
  · exfalso
    simp [linodeNodeBalancers, hle] at hok

/-- Concrete witness for C10: a creating run reports `changed=true` and
issued a write. -/
theorem C10_changed_iff_write_witness :
    (({ changed := true
        «instance» := some { NODEBALANCERID := 100, LABEL := "c"
                             CLIENTCONNTHROTTLE := 0, DATACENTERID := 3
                             PAYMENTTERM := 12 }
        instances := [some { NODEBALANCERID := 100, LABEL := "c"
                             CLIENTCONNTHROTTLE := 0, DATACENTERID := 3
                             PAYMENTTERM := 12 }] } : ExitJson).changed = true ↔
      (linodeNodeBalancers (wenvOf []) "present" (some "c") none 3 12 9).calls.filter
        isWrite ≠ []) :=
  C10_changed_iff_write (wenvOf []) "present" (some "c") none 3 12 9
    { changed := true
      «instance» := some { NODEBALANCERID := 100, LABEL := "c"
                           CLIENTCONNTHROTTLE := 0, DATACENTERID := 3
                           PAYMENTTERM := 12 }
      instances := [some { NODEBALANCERID := 100, LABEL := "c"
                           CLIENTCONNTHROTTLE := 0, DATACENTERID := 3
                           PAYMENTTERM := 12 }] } (by decide)

/-- One id-only reconcile run with a null `name` against a world containing
the id: the comparison `nodebalancer['LABEL'] != name` is between a string
label and `None`, hence always true, so the diff is non-empty, an update
carrying `Label = None` is issued, and `changed=true` is reported. The
resource keeps its id and its string label, so the post-state is again
lookup-able by the same id. -/
theorem id_only_present_run (env : Env) (i : Nat) (dc pt cct : Int)
    (nb : RemoteResource)
    (hle : env.lookupErr = none) (hue : env.updateErr = none)
    (hre : env.refetchErr = none)
    (hfind : env.world.find? (fun r => r.NODEBALANCERID == i) = some nb) :
    ((linodeNodeBalancers env "present" none (some i) dc pt cct).calls.filter isWrite
      = [ApiCall.update
          { NodeBalancerID := nb.NODEBALANCERID
            ClientConnThrottle := some cct
            Label := some none
            DatacenterID := none
            PaymentTerm := none }]) ∧
    ((linodeNodeBalancers env "present" none (some i) dc pt cct).result
      = .ok { changed := true
              «instance» := some { nb with CLIENTCONNTHROTTLE := cct }
              instances := [some { nb with CLIENTCONNTHROTTLE := cct }] }) ∧
    (linodeNodeBalancers env "present" none (some i) dc pt cct).env.lookupErr = none ∧
    (linodeNodeBalancers env "present" none (some i) dc pt cct).env.updateErr = none ∧
    (linodeNodeBalancers env "present" none (some i) dc pt cct).env.refetchErr = none ∧
    (linodeNodeBalancers env "present" none (some i) dc pt cct).env.world.find?
        (fun r => r.NODEBALANCERID == i)
      = some { nb with CLIENTCONNTHROTTLE := cct } := by
  have hid : nb.NODEBALANCERID = i := by simpa using List.find?_some hfind
  have hlf : linode_find_nodebalancer env.world (some i) none = some nb := hfind
  have hbyid : env.world.find? (fun r => r.NODEBALANCERID == nb.NODEBALANCERID) = some nb := by
    rw [hid]
    exact hfind
  have hg : ∀ (c : UpdateCall) (r : RemoteResource),
      ((if r.NODEBALANCERID = c.NodeBalancerID then updFn c r else r)).NODEBALANCERID
        = r.NODEBALANCERID := by
    intro c r
    by_cases h : r.NODEBALANCERID = c.NodeBalancerID <;> simp [h, updFn]
  have hupd : ∀ c : UpdateCall, c.NodeBalancerID = nb.NODEBALANCERID →
      (nodebalancer_update_world env.world c).find?
        (fun r => r.NODEBALANCERID == nb.NODEBALANCERID) = some (updFn c nb) := by
    intro c hc
    have := find_map_pres env.world nb.NODEBALANCERID
      (fun r => if r.NODEBALANCERID = c.NodeBalancerID then updFn c r else r)
      (hg c) nb hbyid
    unfold nodebalancer_update_world
    rw [this]
    simp [hc]
  have hupdi : ∀ c : UpdateCall, c.NodeBalancerID = nb.NODEBALANCERID →
      (nodebalancer_update_world env.world c).find?
        (fun r => r.NODEBALANCERID == i) = some (updFn c nb) := by
    intro c hc
    rw [← hid]
    exact hupd c hc
  have hval : ∀ c : UpdateCall, c.Label = some none → c.ClientConnThrottle = some cct →
      updFn c nb = { nb with CLIENTCONNTHROTTLE := cct } := by
    intro c hcl hct
    simp [updFn, hcl, hct, applyLabelValue]
  have hkw : (if some nb.LABEL ≠ (none : Option String)
      then some (none : Option String) else none) = some none := if_pos (by simp)
  simp only [linodeNodeBalancers, hle, hlf]
  rw [if_pos trivial, if_pos (Or.inl (by simp)), hkw]
  simp only [hue, hre, linode_find_nodebalancer]
  rw [hupd _ rfl, hval _ rfl rfl]
  refine ⟨by simp [isWrite], by simp, by simp [hle], by simp [hue], by simp [hre], ?_⟩
  rw [hupdi _ rfl, hval _ rfl rfl]

/-- **C9.** For every invocation that supplies `node_balancer_id` but no
`name` (name is null), if the resource exists and desired state is present,
the diff compares the remote string label against the null name, so
reconcile issues an update setting `Label` to the null name and reports
`changed=true`; and the immediately following identical run again reports
`changed=true`, so no fixed point with `changed=false` is reached via
id-only lookups. -/
theorem C9_id_only_null_name_updates (env : Env) (i : Nat) (dc pt cct : Int)
    (nb : RemoteResource)
    (hle : env.lookupErr = none) (hue : env.updateErr = none)
    (hre : env.refetchErr = none)
    (hfind : linode_find_nodebalancer env.world (some i) none = some nb) :
    ((linodeNodeBalancers env "present" none (some i) dc pt cct).calls.filter isWrite
      = [ApiCall.update
          { NodeBalancerID := nb.NODEBALANCERID
            ClientConnThrottle := some cct
            Label := some none
            DatacenterID := none
            PaymentTerm := none }]) ∧
    ((linodeNodeBalancers env "present" none (some i) dc pt cct).result
      = .ok { changed := true
              «instance» := some { nb with CLIENTCONNTHROTTLE := cct }
              instances := [some { nb with CLIENTCONNTHROTTLE := cct }] }) ∧
    (∃ j2 : ExitJson,
      (linodeNodeBalancers
          (linodeNodeBalancers env "present" none (some i) dc pt cct).env
          "present" none (some i) dc pt cct).result = .ok j2 ∧
      j2.changed = true) := by
  have h1 := id_only_present_run env i dc pt cct nb hle hue hre hfind
  have h2 := id_only_present_run
    (linodeNodeBalancers env "present" none (some i) dc pt cct).env i dc pt cct
    { nb with CLIENTCONNTHROTTLE := cct }
    h1.2.2.1 h1.2.2.2.1 h1.2.2.2.2.1 h1.2.2.2.2.2
  exact ⟨h1.1, h1.2.1, ⟨_, h2.2.1, rfl⟩⟩

/-- Concrete witness for C9: id-only lookup of a concrete resource with a
null name. -/
theorem C9_id_only_null_name_updates_witness :
    ((linodeNodeBalancers (wenvOf [wr1]) "present" none (some 1) 7 1 9).calls.filter isWrite
      = [ApiCall.update
          { NodeBalancerID := wr1.NODEBALANCERID
            ClientConnThrottle := some 9
            Label := some none
            DatacenterID := none
            PaymentTerm := none }]) ∧
    ((linodeNodeBalancers (wenvOf [wr1]) "present" none (some 1) 7 1 9).result
      = .ok { changed := true
              «instance» := some { wr1 with CLIENTCONNTHROTTLE := 9 }
              instances := [some { wr1 with CLIENTCONNTHROTTLE := 9 }] }) ∧
    (∃ j2 : ExitJson,
      (linodeNodeBalancers
          (linodeNodeBalancers (wenvOf [wr1]) "present" none (some 1) 7 1 9).env
          "present" none (some 1) 7 1 9).result = .ok j2 ∧
      j2.changed = true) :=
  C9_id_only_null_name_updates (wenvOf [wr1]) 1 7 1 9 wr1 rfl rfl rfl (by decide)

end LinodeNodeBalancer
